import Mathlib

/-!
A shallow embedding of the BoostMe dashboard pipeline
(`src/Romain_fichier/boostme_streamlit/app.py`): the French-locale number
formatters, the schema normalizer, the loader's extension dispatch and
temporal derivation, the conjunctive filter block and the KPI block.

Modelling conventions:
* pandas cell values are `Option` types; a missing value (`NaN`/`NaT`/`None`)
  is `none`.  Machine floats are modelled by `ℚ`; the numbers the claims
  mention are exactly representable.
* A `DataFrame` is its ordered column-label list plus its ordered rows.
  `DataFrame.rename` only relabels columns (data follows the position), so
  the normalizer is stated on the label list; the typed `Row` carries every
  canonical field the pipeline can read.
* Python `str.lower` is `pyLower` (per-character ASCII lowering; every
  uppercase letter the program compares is ASCII) and `str.endswith` is
  `pyEndsWith`, both written over character lists so that proofs can
  evaluate them.
* Apostrophes inside string literals are written with the `\x27` escape.
-/

namespace BoostMe

/-- Python `str.lower()` applied characterwise. -/
def pyLower (s : String) : String := String.mk (s.data.map Char.toLower)

/-- Python `str.endswith(suffix)`. -/
def pyEndsWith (s suffix : String) : Bool := suffix.data.isSuffixOf s.data

/-- `REQUIRED_COLUMNS` (app.py lines 101-108): the six canonical input
columns the dashboard's info message lists. -/
def REQUIRED_COLUMNS : List String :=
  [("category_id"), ("views"), ("Taux d\x27engagement (%)"), ("Engagement total"),
   ("channel"), ("published_at")]

/-- The integer nearest to the fraction `n / d` (`d` positive), ties to
even: Python's builtin `round`, computed on the exact fraction with
integer operations only. -/
def roundHalfEven (n d : Int) : Int :=
  let f : Int := n.fdiv d
  let r : Int := n - f * d
  if 2 * r < d then f
  else if d < 2 * r then f + 1
  else if f % 2 = 0 then f else f + 1

/-- Round half to even, as Python's builtin `round` (the source computes
`int(round(float(n)))`). -/
def pyRound (q : ℚ) : Int :=
  roundHalfEven q.num (q.den : Int)

/-- Split a (reversed) digit list in groups of three, least significant
digits first; the tail group may be shorter. -/
def chunk3 : List Char → List (List Char)
  | a :: b :: c :: rest => [a, b, c] :: chunk3 rest
  | [] => []
  | l => [l]

/-- Decimal digits of a natural number grouped in threes with a space,
as Python's `f"{n:,}".replace(",", " ")` renders the magnitude. -/
def groupThousands (n : Nat) : String :=
  String.mk (List.intercalate [' '] (chunk3 (Nat.repr n).data.reverse)).reverse

/-- A signed integer with space-grouped thousands (Python's `f"{n:,}"`
followed by the comma-to-space replacement). -/
def intThousands (n : Int) : String :=
  (if n < 0 then ("-") else ("")) ++ groupThousands n.natAbs

/-- `_fr_int` (app.py lines 110-118): `None`/`NaN` renders as the em-dash
placeholder, otherwise round to the nearest integer and group thousands
with spaces. -/
def _fr_int (n : Option ℚ) : String :=
  match n with
  | none => ("—")
  | some q => intThousands (pyRound q)

/-- Left-pad a digit string with zeros up to length `d`. -/
def padZeros (d : Nat) (s : String) : String :=
  String.mk (List.replicate (d - s.length) '0') ++ s

/-- `_fr_float` (app.py lines 120-129): fixed `decimals` digits, comma as
decimal separator, space as thousands separator (the source formats with
`{:,.Nf}` then swaps the separators). -/
def _fr_float (n : Option ℚ) (decimals : Nat) : String :=
  match n with
  | none => ("—")
  | some q =>
    let scaled : Int := roundHalfEven (q.num * ((10 : Int) ^ decimals)) (q.den : Int)
    let ip : Nat := scaled.natAbs / 10 ^ decimals
    let fp : Nat := scaled.natAbs % 10 ^ decimals
    (if scaled < 0 then ("-") else ("")) ++ groupThousands ip ++
      (if decimals = 0 then ("") else ("," ++ padZeros decimals (Nat.repr fp)))

/-- The variant-to-canonical lookup table of `normalize_columns`
(app.py lines 136-157), in source order.  Python dict keys are all
distinct, so the association list has no duplicate keys. -/
def rename_map : List (String × String) :=
  [(("taux_engagement"), ("Taux d\x27engagement (%)")),
   (("taux d\x27engagement (%)"), ("Taux d\x27engagement (%)")),
   (("engagement_total"), ("Engagement total")),
   (("engagement total"), ("Engagement total")),
   (("publishedAt"), ("published_at")),
   (("published_at"), ("published_at")),
   (("date_publication"), ("published_at")),
   (("categorie_id"), ("category_id")),
   (("categoryId"), ("category_id")),
   (("vues"), ("views")),
   (("views"), ("views")),
   (("chaine"), ("channel")),
   (("channel"), ("channel")),
   (("jour de la semaine"), ("Jour de la semaine")),
   (("Jour de la semaine"), ("Jour de la semaine")),
   (("heure"), ("Heure")),
   (("Heure"), ("Heure")),
   (("category_name"), ("cats.name")),
   (("categorie"), ("cats.name")),
   (("cats.name"), ("cats.name"))]

/-- The dict `{c.lower(): c for c in df.columns}` (app.py line 160): lookup
of a key returns the LAST column whose lowercase form equals it (later
comprehension entries overwrite earlier ones). -/
def lower_to_actual (cols : List String) (k : String) : Option String :=
  cols.reverse.find? (fun c => pyLower c == k)

/-- The dict `final_rename` (app.py lines 161-164): for each lookup-table
entry `(k, v)` whose key `k` occurs verbatim in the lowercased column
index, map the actual column name to `v`.  Distinct fired entries have
distinct actuals, so list order is immaterial; lookup takes the last
binding like a Python dict. -/
def final_rename (cols : List String) : List (String × String) :=
  rename_map.filterMap (fun kv => (lower_to_actual cols kv.1).map (fun a => (a, kv.2)))

/-- Python dict `get` with identity default over an association list,
last binding wins. -/
def renameLookup (m : List (String × String)) (c : String) : Option String :=
  (m.reverse.find? (fun p => p.1 == c)).map (fun p => p.2)

/-- `normalize_columns` (app.py lines 131-167) restricted to what it
observes and changes: the ordered column-label list.  `df.rename(columns=m)`
maps every label through `m` (labels absent from `m` stay), and never drops
or reorders columns. -/
def normalize_columns (cols : List String) : List String :=
  cols.map (fun c => (renameLookup (final_rename cols) c).getD c)

/-- The canonical column names of the normalized schema: the six required
columns, the three derived slicer columns and the optional category name. -/
def canonicalNames : List String :=
  REQUIRED_COLUMNS ++ [("Année"), ("Jour de la semaine"), ("Heure"), ("cats.name")]

/-- The three timestamp components the source reads from a parsed
`published_at` value (`.dt.year`, `.dt.weekday` with Monday = 0, `.dt.hour`). -/
structure Stamp where
  year : Int
  weekday : Nat
  hour : Int
  deriving DecidableEq

/-- One record of the normalized table: every canonical field the pipeline
can read, each nullable.  Field `taux_engagement` carries the column
labelled `Taux d\x27engagement (%)`, `engagement_total` the column
`Engagement total`, `annee` the column `Année`, `jour_semaine` the column
`Jour de la semaine`, `heure` the column `Heure` and `cats_name` the
column `cats.name`. -/
structure Row where
  category_id : Option String
  views : Option ℚ
  taux_engagement : Option ℚ
  engagement_total : Option ℚ
  channel : Option String
  published_at : Option Stamp
  annee : Option Int
  jour_semaine : Option String
  heure : Option Int
  cats_name : Option String
  deriving DecidableEq

/-- A pandas DataFrame as the pipeline observes it: ordered column labels
plus ordered rows. -/
structure DataFrame where
  cols : List String
  rows : List Row
  deriving DecidableEq

/-- `pd.DataFrame()`: zero rows, zero columns. -/
def emptyDF : DataFrame := ⟨[], []⟩

/-- The `fr_weekdays` dict (app.py lines 194-197); `Series.map` over a dict
yields `NaN` for keys outside the dict. -/
def fr_weekdays (w : Nat) : Option String :=
  match w with
  | 0 => some ("Lundi")
  | 1 => some ("Mardi")
  | 2 => some ("Mercredi")
  | 3 => some ("Jeudi")
  | 4 => some ("Vendredi")
  | 5 => some ("Samedi")
  | 6 => some ("Dimanche")
  | _ => none

/-- `df["Année"] = df["published_at"].dt.year`: null timestamp gives null. -/
def deriveYearRow (r : Row) : Row :=
  { r with annee := r.published_at.map (fun d => d.year) }

/-- `df["Jour de la semaine"] = df["published_at"].dt.weekday.map(fr_weekdays)`. -/
def deriveDayRow (r : Row) : Row :=
  { r with jour_semaine := r.published_at.bind (fun d => fr_weekdays d.weekday) }

/-- `df["Heure"] = df["published_at"].dt.hour`. -/
def deriveHourRow (r : Row) : Row :=
  { r with heure := r.published_at.map (fun d => d.hour) }

/-- The derivation block of `load_data` (app.py lines 188-200): if
`published_at` is a column, add each of `Année`, `Jour de la semaine` and
`Heure` unless already present; a new column lands at the end of the
label list. -/
def deriveTemporal (df : DataFrame) : DataFrame :=
  if ("published_at") ∈ df.cols then
    let df1 := if ("Année") ∈ df.cols then df else
      ⟨df.cols ++ [("Année")], df.rows.map deriveYearRow⟩
    let df2 := if ("Jour de la semaine") ∈ df1.cols then df1 else
      ⟨df1.cols ++ [("Jour de la semaine")], df1.rows.map deriveDayRow⟩
    let df3 := if ("Heure") ∈ df2.cols then df2 else
      ⟨df2.cols ++ [("Heure")], df2.rows.map deriveHourRow⟩
    df3
  else df

/-- An uploaded file: its declared name, and the raw table its container
parser would produce.  The source dispatches on the (lowercased) name only
to choose between `pd.read_csv` and `pd.read_parquet`; both parsers are
modelled abstractly by the `parsed` table since their internals are
pandas library code, not repository code. -/
structure UploadedFile where
  name : String
  parsed : DataFrame

/-- The post-parse steps of `load_data` (app.py lines 182-207): normalize
labels, then derive the temporal columns.  Timestamp parsing and numeric
coercion are captured by the typed `Row` fields, where an unparseable cell
is already `none`. -/
def postLoad (df : DataFrame) : DataFrame :=
  deriveTemporal ⟨normalize_columns df.cols, df.rows⟩

/-- `load_data` (app.py lines 169-207): no file gives the empty frame;
otherwise dispatch on the lowercased file name's extension, raising
`ValueError` for anything but `.csv`/`.parquet`. -/
def load_data (file : Option UploadedFile) : Except String DataFrame :=
  match file with
  | none => Except.ok emptyDF
  | some f =>
    if pyEndsWith (pyLower f.name) (".csv") then Except.ok (postLoad f.parsed)
    else if pyEndsWith (pyLower f.name) (".parquet") then Except.ok (postLoad f.parsed)
    else Except.error ("Format non supporté (CSV/Parquet uniquement).")

/-- `Series.isin(sel)` on a nullable cell, for selections without nulls
(the slicers build their option lists with `dropna`): a null cell matches
nothing. -/
def optIn [BEq α] (sel : List α) : Option α → Bool
  | some x => sel.contains x
  | none => false

/-- One slicer facet with its selected values (app.py lines 276-297). -/
inductive Facet where
  | year : List Int → Facet
  | cat : List String → Facet
  | chan : List String → Facet
  | day : List String → Facet
  | hour : List Int → Facet

/-- The guard of a facet's `if` in the filter block: a non-empty selection
and the facet's column present in the frame. -/
def facetActive (cols : List String) : Facet → Bool
  | Facet.year sel => !sel.isEmpty && cols.contains ("Année")
  | Facet.cat sel => !sel.isEmpty && cols.contains ("cats.name")
  | Facet.chan sel => !sel.isEmpty && cols.contains ("channel")
  | Facet.day sel => !sel.isEmpty && cols.contains ("Jour de la semaine")
  | Facet.hour sel => !sel.isEmpty && cols.contains ("Heure")

/-- The row predicate of a facet's `isin` filter. -/
def facetMatch (f : Facet) (r : Row) : Bool :=
  match f with
  | Facet.year sel => optIn sel r.annee
  | Facet.cat sel => optIn sel r.cats_name
  | Facet.chan sel => optIn sel r.channel
  | Facet.day sel => optIn sel r.jour_semaine
  | Facet.hour sel => optIn sel r.heure

/-- One `if`-guarded filter step of the filter block (app.py lines 301-310):
`fdf = fdf[fdf[col].isin(sel)]` when active, otherwise the frame unchanged.
Boolean-mask selection keeps the column labels. -/
def applyFacet (f : Facet) (df : DataFrame) : DataFrame :=
  if facetActive df.cols f then ⟨df.cols, df.rows.filter (facetMatch f)⟩ else df

/-- Keep-predicate of a facet including its guard: an inactive facet keeps
every row. -/
def facetKeep (cols : List String) (f : Facet) (r : Row) : Bool :=
  !facetActive cols f || facetMatch f r

/-- Two facets applied simultaneously in one filtering pass. -/
def applyBoth (a b : Facet) (df : DataFrame) : DataFrame :=
  ⟨df.cols, df.rows.filter (fun r => facetKeep df.cols a r && facetKeep df.cols b r)⟩

/-- The whole filter block (app.py lines 299-310): the five facet steps in
source order, each reading the intermediate frame. -/
def filterBlock (df : DataFrame) (year_sel : List Int) (cat_sel ch_sel day_sel : List String)
    (hour_sel : List Int) : DataFrame :=
  applyFacet (Facet.hour hour_sel)
    (applyFacet (Facet.day day_sel)
      (applyFacet (Facet.chan ch_sel)
        (applyFacet (Facet.cat cat_sel)
          (applyFacet (Facet.year year_sel) df))))

/-- `Series.mean()`: the arithmetic mean of the non-null values, `NaN`
(here `none`) when there are none. -/
def seriesMean (vals : List (Option ℚ)) : Option ℚ :=
  let xs := vals.filterMap id
  if xs.isEmpty then none else some (xs.sum / (xs.length : ℚ))

/-- `Series.sum()`: the sum of the non-null values, `0` on an empty or
all-null series. -/
def seriesSum (vals : List (Option ℚ)) : ℚ :=
  (vals.filterMap id).sum

/-- `fdf["category_id"].notna().sum()` (app.py line 319). -/
def countVideos (rows : List Row) : Nat :=
  (rows.filter (fun r => r.category_id.isSome)).length

/-- `fdf["views"].mean()` (app.py line 324). -/
def avgViews (rows : List Row) : Option ℚ :=
  seriesMean (rows.map (fun r => r.views))

/-- `fdf["Taux d\x27engagement (%)"].mean()` (app.py line 329). -/
def avgEngagement (rows : List Row) : Option ℚ :=
  seriesMean (rows.map (fun r => r.taux_engagement))

/-- `fdf["Engagement total"].sum()` (app.py line 334). -/
def totalInteractions (rows : List Row) : ℚ :=
  seriesSum (rows.map (fun r => r.engagement_total))

/-- The KPI block (app.py lines 315-335): the four card values in source
order.  Indexing `fdf[c]` raises `KeyError` when label `c` is absent, so
each card's column is demanded unconditionally before any value renders. -/
def kpiBlock (fdf : DataFrame) : Except String (String × String × String × String) :=
  if fdf.cols.contains ("category_id") then
    if fdf.cols.contains ("views") then
      if fdf.cols.contains ("Taux d\x27engagement (%)") then
        if fdf.cols.contains ("Engagement total") then
          Except.ok
            (_fr_int (some ((countVideos fdf.rows : ℚ))),
             _fr_int (avgViews fdf.rows),
             _fr_float (avgEngagement fdf.rows) 2 ++ (" %"),
             _fr_int (some (totalInteractions fdf.rows)))
        else Except.error ("KeyError: Engagement total")
      else Except.error ("KeyError: Taux d\x27engagement (%)")
    else Except.error ("KeyError: views")
  else Except.error ("KeyError: category_id")

/-- Row 1 of the spec's reference scenario: category "a", 100 views,
2.0 % engagement, 5 interactions, channel X, published 2024-01-01T10:00Z
(a Monday). -/
def specRow1 : Row :=
  ⟨some ("a"), some 100, some 2, some 5, some ("X"), some ⟨2024, 0, 10⟩,
   none, none, none, none⟩

/-- Row 2: null category, 200 views, 4.0 % engagement, 15 interactions,
channel Y, published 2024-06-01T10:00Z (a Saturday). -/
def specRow2 : Row :=
  ⟨none, some 200, some 4, some 15, some ("Y"), some ⟨2024, 5, 10⟩,
   none, none, none, none⟩

/-- Row 3: category "c", null views, null engagement rate, 0 interactions,
channel X, published 2023-01-01T10:00Z (a Sunday). -/
def specRow3 : Row :=
  ⟨some ("c"), none, none, some 0, some ("X"), some ⟨2023, 6, 10⟩,
   none, none, none, none⟩

/-- The spec's 3-row reference table as parsed and coerced, before the
loader derives the slicer columns. -/
def specBase : DataFrame :=
  ⟨REQUIRED_COLUMNS, [specRow1, specRow2, specRow3]⟩

/-- The reference table as loaded: slicer columns derived. -/
def specDF : DataFrame := deriveTemporal specBase

/-- The loaded reference table further filtered to year 2024 only. -/
def specDF2024 : DataFrame := filterBlock specDF [2024] [] [] [] []

/-- A row whose cells are all null. -/
def nullRow : Row :=
  ⟨none, none, none, none, none, none, none, none, none, none⟩

/-- A one-row frame whose `published_at` cell is null and whose slicer
columns are absent, exercising the derivation step. -/
def nullDF : DataFrame := ⟨[("published_at")], [nullRow]⟩

/-- A non-empty frame missing the KPI columns except `views`. -/
def missingColsDF : DataFrame := ⟨[("views")], [nullRow]⟩

/-- Row 1 after the loader's derivation step. -/
def specRow1d : Row :=
  ⟨some ("a"), some 100, some 2, some 5, some ("X"), some ⟨2024, 0, 10⟩,
   some 2024, some ("Lundi"), some 10, none⟩

/-- Row 2 after the loader's derivation step. -/
def specRow2d : Row :=
  ⟨none, some 200, some 4, some 15, some ("Y"), some ⟨2024, 5, 10⟩,
   some 2024, some ("Samedi"), some 10, none⟩

/-- Row 3 after the loader's derivation step. -/
def specRow3d : Row :=
  ⟨some ("c"), none, none, some 0, some ("X"), some ⟨2023, 6, 10⟩,
   some 2023, some ("Dimanche"), some 10, none⟩

/-- The rational number 12345.6 given by its reduced fraction, so that the
formatter can be evaluated on it by reduction. -/
def q6 : ℚ := ⟨61728, 5, by decide, by decide⟩


/-! ### Helper lemmas -/

/-- A map whose function fixes every element of a list is the identity on it. -/
theorem map_id_on {α : Type} (f : α → α) :
    ∀ l : List α, (∀ a ∈ l, f a = a) → l.map f = l
  | [], _ => rfl
  | a :: t, h => by
    have h1 := h a (List.mem_cons_self a t)
    have h2 := map_id_on f t (fun b hb => h b (List.mem_cons_of_mem a hb))
    simp [h1, h2]

/-- Two successive filters equal one filter by the conjunction. -/
theorem filter_and_eq {α : Type} (p q : α → Bool) (l : List α) :
    (l.filter p).filter q = l.filter (fun a => p a && q a) := by
  rw [List.filter_filter]
  simp [Bool.and_comm]

/-- A list holding the same value at two distinct positions counts it at
least twice. -/
theorem two_le_count_of_getElem {α : Type} [DecidableEq α] {v : α} :
    ∀ (l : List α) (i j : Nat) (hi : i < l.length) (hj : j < l.length),
      i ≠ j → l[i] = v → l[j] = v → 2 ≤ l.count v := by
  intro l
  induction l with
  | nil => intro i j hi _ _ _ _; simp at hi
  | cons a t ih =>
    intro i j hi hj hne h1 h2
    match i, j with
    | 0, 0 => exact absurd rfl hne
    | 0, j + 1 =>
      simp only [List.getElem_cons_zero] at h1
      simp only [List.getElem_cons_succ] at h2
      have hm : v ∈ t := h2 ▸ List.getElem_mem (by simpa using hj)
      rw [h1, List.count_cons_self]
      have hp : 0 < t.count v := List.count_pos_iff.mpr hm
      omega
    | i + 1, 0 =>
      simp only [List.getElem_cons_zero] at h2
      simp only [List.getElem_cons_succ] at h1
      have hm : v ∈ t := h1 ▸ List.getElem_mem (by simpa using hi)
      rw [h2, List.count_cons_self]
      have hp : 0 < t.count v := List.count_pos_iff.mpr hm
      omega
    | i + 1, j + 1 =>
      simp only [List.getElem_cons_succ] at h1 h2
      have hr := ih i j (by simpa using hi) (by simpa using hj) (by omega) h1 h2
      have hc : t.count v ≤ (a :: t).count v := by
        rw [List.count_cons]
        split <;> omega
      omega

/-- A successful `lower_to_actual` lookup returns a column of the frame
whose lowercasing is the requested key. -/
theorem lower_to_actual_some {cols : List String} {k a : String}
    (h : lower_to_actual cols k = some a) : a ∈ cols ∧ pyLower a = k := by
  rw [lower_to_actual] at h
  refine ⟨List.mem_reverse.mp (List.mem_of_find?_eq_some h), ?_⟩
  have hb := List.find?_some h
  simp only [beq_iff_eq] at hb
  exact hb

/-- Every binding of `final_rename` pairs a column of the frame with the
target of a lookup-table entry whose key is that column lowercased. -/
theorem mem_final_rename {cols : List String} {a v : String}
    (h : (a, v) ∈ final_rename cols) :
    a ∈ cols ∧ ∃ kv ∈ rename_map, kv.1 = pyLower a ∧ kv.2 = v := by
  rw [final_rename, List.mem_filterMap] at h
  obtain ⟨kv, hkv, hmap⟩ := h
  rw [Option.map_eq_some'] at hmap
  obtain ⟨a', ha', heq⟩ := hmap
  injection heq with e1 e2
  subst e1
  obtain ⟨hmem, hlow⟩ := lower_to_actual_some ha'
  exact ⟨hmem, kv, hkv, hlow.symm, e2⟩

/-- A successful dict lookup means the binding is in the association list. -/
theorem renameLookup_some {m : List (String × String)} {c v : String}
    (h : renameLookup m c = some v) : (c, v) ∈ m := by
  rw [renameLookup, Option.map_eq_some'] at h
  obtain ⟨p, hp, hv⟩ := h
  have hm : p ∈ m := List.mem_reverse.mp (List.mem_of_find?_eq_some hp)
  have hc : p.1 = c := by
    have hb := List.find?_some hp
    simp only [beq_iff_eq] at hb
    exact hb
  obtain ⟨p1, p2⟩ := p
  simp only at hc hv
  subst hc
  subst hv
  exact hm

/-- A failed dict lookup means no binding carries the key. -/
theorem renameLookup_none {m : List (String × String)} {c : String}
    (h : renameLookup m c = none) : ∀ p ∈ m, p.1 ≠ c := by
  rw [renameLookup, Option.map_eq_none'] at h
  rw [List.find?_eq_none] at h
  intro p hp
  have := h p (List.mem_reverse.mpr hp)
  simpa using this

/-- Every target of the lookup table is a canonical column name. -/
theorem targets_canonical : ∀ kv ∈ rename_map, kv.2 ∈ canonicalNames := by decide

/-- A lookup-table entry whose key is the lowercasing of a canonical name
targets exactly that name. -/
theorem canonical_fixed :
    ∀ a ∈ canonicalNames, ∀ kv ∈ rename_map, kv.1 = pyLower a → kv.2 = a := by decide

/-- The rename step fixes every canonical column name, whatever the frame. -/
theorem norm_fix_of_canonical {cols : List String} {c : String}
    (hc : c ∈ canonicalNames) :
    (renameLookup (final_rename cols) c).getD c = c := by
  cases h : renameLookup (final_rename cols) c with
  | none => rfl
  | some v =>
    obtain ⟨-, kv, hkv, hk1, hk2⟩ := mem_final_rename (renameLookup_some h)
    have hvc : v = c := by rw [← hk2]; exact canonical_fixed c hc kv hkv hk1
    simp [hvc]

/-- `normalize_columns` is the identity as soon as its per-label map is. -/
theorem normalize_eq_self_of (cols : List String)
    (h : ∀ c ∈ cols, (renameLookup (final_rename cols) c).getD c = c) :
    normalize_columns cols = cols :=
  map_id_on _ cols h

/-- With no two columns colliding case-insensitively, one normalization
pass reaches a fixed point. -/
theorem normalize_idem_of_nodup {cols : List String}
    (hnd : (cols.map pyLower).Nodup) :
    normalize_columns (normalize_columns cols) = normalize_columns cols := by
  apply normalize_eq_self_of
  intro c' hc'
  rw [normalize_columns, List.mem_map] at hc'
  obtain ⟨c, hc, hfc⟩ := hc'
  cases hl : renameLookup (final_rename cols) c with
  | some v =>
    have hv : c' = v := by rw [hl] at hfc; simpa using hfc.symm
    subst hv
    obtain ⟨-, kv, hkv, -, hk2⟩ := mem_final_rename (renameLookup_some hl)
    have hcan : c' ∈ canonicalNames := by rw [← hk2]; exact targets_canonical kv hkv
    exact norm_fix_of_canonical hcan
  | none =>
    have hcc : c' = c := by rw [hl] at hfc; simpa using hfc.symm
    subst hcc
    cases hl2 : renameLookup (final_rename (normalize_columns cols)) c' with
    | none => simp [hl2]
    | some w =>
      exfalso
      obtain ⟨-, kv, hkv, hk1, -⟩ := mem_final_rename (renameLookup_some hl2)
      cases hfind : lower_to_actual cols kv.1 with
      | none =>
        rw [lower_to_actual, List.find?_eq_none] at hfind
        have := hfind c' (List.mem_reverse.mpr hc)
        rw [hk1] at this
        simp at this
      | some a =>
        obtain ⟨hain, halow⟩ := lower_to_actual_some hfind
        have hac : a = c' := by
          apply List.inj_on_of_nodup_map hnd hain hc
          rw [halow, hk1]
        have hmem : (c', kv.2) ∈ final_rename cols := by
          rw [final_rename, List.mem_filterMap]
          refine ⟨kv, hkv, ?_⟩
          rw [hfind, hac]
          rfl
        exact renameLookup_none hl (c', kv.2) hmem rfl

/-- One guarded facet step is one filter by the guarded keep-predicate. -/
theorem applyFacet_eq_filter (f : Facet) (df : DataFrame) :
    applyFacet f df = ⟨df.cols, df.rows.filter (facetKeep df.cols f)⟩ := by
  obtain ⟨cs, rs⟩ := df
  rw [applyFacet]
  cases h : facetActive cs f with
  | true =>
    have hk : facetKeep cs f = facetMatch f := by
      funext r
      simp [facetKeep, h]
    simp [h, hk]
  | false =>
    have hk : facetKeep cs f = fun _ => true := by
      funext r
      simp [facetKeep, h]
    simp [h, hk]

/-- Facet steps leave the column labels unchanged. -/
theorem applyFacet_cols (f : Facet) (df : DataFrame) :
    (applyFacet f df).cols = df.cols := by
  rw [applyFacet_eq_filter]

/-- Two successive facet steps equal the simultaneous one-pass filter. -/
theorem applyFacet_applyFacet (a b : Facet) (df : DataFrame) :
    applyFacet b (applyFacet a df) = applyBoth a b df := by
  rw [applyFacet_eq_filter a df, applyFacet_eq_filter b, applyBoth]
  congr 1
  exact filter_and_eq _ _ _

/-- The one-pass filter is symmetric in its two facets. -/
theorem applyBoth_comm (a b : Facet) (df : DataFrame) :
    applyBoth a b df = applyBoth b a df := by
  rw [applyBoth, applyBoth]
  congr 1
  apply List.filter_congr
  intro r _
  exact Bool.and_comm _ _

/-! ### Claim theorems -/

/-- Claim C2 (code bug): the lookup table does contain the variant entry
mapping "publishedAt" to "published_at", and the input column
"publishedAt" matches that key case-insensitively (trivially, being equal
to it), yet `normalize_columns` leaves the column unrenamed: the code
compares the never-lowercased key against the lowercased column index, so
keys containing an uppercase letter can never fire. -/
theorem publishedAt_variant_not_renamed :
    (("publishedAt"), ("published_at")) ∈ rename_map
    ∧ normalize_columns [("publishedAt")] = [("publishedAt")]
    ∧ normalize_columns [("publishedAt")] ≠ [("published_at")] := by decide

/-- Claim C3, counterexample: with both "channel" and "chaine" present,
the normalizer output carries the canonical name twice — not exactly
once as the claim states. -/
theorem colliding_variants_counterexample :
    normalize_columns [("channel"), ("chaine")] = [("channel"), ("channel")]
    ∧ (normalize_columns [("channel"), ("chaine")]).count ("channel") ≠ 1 := by decide

/-- Claim C3 (amended): normalization never drops a column — the output
has exactly as many columns as the input — and whenever two columns at
distinct positions are each renamed to the same canonical name, the
output contains that canonical name at least twice, never exactly once;
in particular with both "channel" and "chaine" present the output is
["channel", "channel"]. -/
theorem colliding_variants_both_renamed :
    (∀ cols : List String, (normalize_columns cols).length = cols.length)
    ∧ (∀ (cols : List String) (v : String) (i j : Nat)
        (hi : i < cols.length) (hj : j < cols.length), i ≠ j →
        renameLookup (final_rename cols) (cols[i]) = some v →
        renameLookup (final_rename cols) (cols[j]) = some v →
        2 ≤ (normalize_columns cols).count v)
    ∧ normalize_columns [("channel"), ("chaine")] = [("channel"), ("channel")] := by
  refine ⟨?_, ?_, by decide⟩
  · intro cols
    simp [normalize_columns]
  · intro cols v i j hi hj hne h1 h2
    have hlen : (normalize_columns cols).length = cols.length := by
      simp [normalize_columns]
    have hi' : i < (normalize_columns cols).length := by rw [hlen]; exact hi
    have hj' : j < (normalize_columns cols).length := by rw [hlen]; exact hj
    refine two_le_count_of_getElem (normalize_columns cols) i j hi' hj' hne ?_ ?_
    · simp only [normalize_columns, List.getElem_map]
      rw [h1]
      rfl
    · simp only [normalize_columns, List.getElem_map]
      rw [h2]
      rfl

/-- Witness for the amended claim C3 at the spec's own example columns. -/
theorem colliding_variants_both_renamed_witness :
    ((0 : Nat) ≠ 1
     ∧ renameLookup (final_rename [("channel"), ("chaine")]) (("channel")) = some ("channel")
     ∧ renameLookup (final_rename [("channel"), ("chaine")]) (("chaine")) = some ("channel"))
    ∧ 2 ≤ (normalize_columns [("channel"), ("chaine")]).count ("channel") :=
  ⟨⟨by decide, by decide, by decide⟩,
   (colliding_variants_both_renamed).2.1 [("channel"), ("chaine")] ("channel") 0 1
     (by decide) (by decide) (by decide) (by decide) (by decide)⟩

/-- Claim C5, counterexample: normalization is not idempotent on every
table.  With the case-colliding columns "chaine" and "CHAINE", the first
pass renames only the shadowing column, the second pass renames the other
one too. -/
theorem normalize_not_idempotent_counterexample :
    normalize_columns [("chaine"), ("CHAINE")] = [("chaine"), ("channel")]
    ∧ normalize_columns (normalize_columns [("chaine"), ("CHAINE")])
        = [("channel"), ("channel")]
    ∧ normalize_columns (normalize_columns [("chaine"), ("CHAINE")])
        ≠ normalize_columns [("chaine"), ("CHAINE")] := by decide

/-- Claim C5 (amended): normalization is idempotent on every table whose
column names are pairwise distinct after lowercasing, and it is the
identity on every table whose columns are all canonical names. -/
theorem normalize_idempotent_amended (cols : List String) :
    ((cols.map pyLower).Nodup →
      normalize_columns (normalize_columns cols) = normalize_columns cols)
    ∧ ((∀ c ∈ cols, c ∈ canonicalNames) → normalize_columns cols = cols) :=
  ⟨fun h => normalize_idem_of_nodup h,
   fun h => normalize_eq_self_of cols (fun c hc => norm_fix_of_canonical (h c hc))⟩

/-- Witness for the amended claim C5 at concrete inputs. -/
theorem normalize_idempotent_amended_witness :
    normalize_columns (normalize_columns [("chaine"), ("Views")])
      = normalize_columns [("chaine"), ("Views")]
    ∧ normalize_columns [("category_id"), ("channel")] = [("category_id"), ("channel")] :=
  ⟨(normalize_idempotent_amended [("chaine"), ("Views")]).1 (by decide),
   (normalize_idempotent_amended [("category_id"), ("channel")]).2 (by decide)⟩

/-- Claim C6: the filter engine is a pure conjunction — applying facet `a`
then facet `b` equals applying `b` then `a`, and equals the one-pass
simultaneous filter, on every frame and every pair of facet selections. -/
theorem filter_facet_order_irrelevant (df : DataFrame) (a b : Facet) :
    applyFacet b (applyFacet a df) = applyFacet a (applyFacet b df)
    ∧ applyFacet b (applyFacet a df) = applyBoth a b df :=
  ⟨by rw [applyFacet_applyFacet, applyFacet_applyFacet, applyBoth_comm],
   applyFacet_applyFacet a b df⟩

/-- Claim C1, counterexample: on the spec's reference table filtered to
year 2024, the pipeline keeps rows 1 and 2 (both published in 2024) and
computes average views 150, average engagement 3 and total interactions
20 — not the 200 / 4 / 15 the claim states. -/
theorem year_filter_scenario_counterexample :
    avgViews specDF2024.rows = some 150
    ∧ avgEngagement specDF2024.rows = some 3
    ∧ totalInteractions specDF2024.rows = 20
    ∧ ¬(avgViews specDF2024.rows = some 200
        ∧ avgEngagement specDF2024.rows = some 4
        ∧ totalInteractions specDF2024.rows = 15) := by
  have hr : specDF2024.rows = [specRow1d, specRow2d] := by decide
  rw [hr]
  have h1 : avgViews [specRow1d, specRow2d] = some 150 := by
    norm_num [avgViews, seriesMean, specRow1d, specRow2d,
      List.filterMap_cons, List.filterMap_nil, id]
  have h2 : avgEngagement [specRow1d, specRow2d] = some 3 := by
    norm_num [avgEngagement, seriesMean, specRow1d, specRow2d,
      List.filterMap_cons, List.filterMap_nil, id]
  have h3 : totalInteractions [specRow1d, specRow2d] = 20 := by
    norm_num [totalInteractions, seriesSum, specRow1d, specRow2d,
      List.filterMap_cons, List.filterMap_nil, id]
  refine ⟨h1, h2, h3, ?_⟩
  rintro ⟨ha, -, -⟩
  rw [h1] at ha
  norm_num at ha

/-- Claim C1 (amended): with no filter selections the pipeline returns the
loaded table unchanged and computes count 2, average views 150, average
engagement 3 and total interactions 20; filtering to year 2024 keeps rows
1 and 2 and computes count 1, average views 150, average engagement 3 and
total interactions 20. -/
theorem spec_scenario_kpis :
    filterBlock specDF [] [] [] [] [] = specDF
    ∧ countVideos specDF.rows = 2
    ∧ avgViews specDF.rows = some 150
    ∧ avgEngagement specDF.rows = some 3
    ∧ totalInteractions specDF.rows = 20
    ∧ specDF2024.rows = [specRow1d, specRow2d]
    ∧ countVideos specDF2024.rows = 1
    ∧ avgViews specDF2024.rows = some 150
    ∧ avgEngagement specDF2024.rows = some 3
    ∧ totalInteractions specDF2024.rows = 20 := by
  have hr3 : specDF.rows = [specRow1d, specRow2d, specRow3d] := by decide
  have hr2 : specDF2024.rows = [specRow1d, specRow2d] := by decide
  rw [hr3, hr2]
  refine ⟨by decide, by decide, ?_, ?_, ?_, rfl, by decide, ?_, ?_, ?_⟩
  · norm_num [avgViews, seriesMean, specRow1d, specRow2d, specRow3d,
      List.filterMap_cons, List.filterMap_nil, id]
  · norm_num [avgEngagement, seriesMean, specRow1d, specRow2d, specRow3d,
      List.filterMap_cons, List.filterMap_nil, id]
  · norm_num [totalInteractions, seriesSum, specRow1d, specRow2d, specRow3d,
      List.filterMap_cons, List.filterMap_nil, id]
  · norm_num [avgViews, seriesMean, specRow1d, specRow2d,
      List.filterMap_cons, List.filterMap_nil, id]
  · norm_num [avgEngagement, seriesMean, specRow1d, specRow2d,
      List.filterMap_cons, List.filterMap_nil, id]
  · norm_num [totalInteractions, seriesSum, specRow1d, specRow2d,
      List.filterMap_cons, List.filterMap_nil, id]

/-- Claim C4: on a filtered table with zero rows, the sum-based KPI is 0
while both mean-based KPIs are null (`NaN`), never 0 — the asymmetry of
`Series.sum` and `Series.mean` on an empty selection. -/
theorem empty_table_kpis (df : DataFrame) (h : df.rows = []) :
    totalInteractions df.rows = 0
    ∧ avgViews df.rows = none
    ∧ avgEngagement df.rows = none
    ∧ avgViews df.rows ≠ some 0
    ∧ avgEngagement df.rows ≠ some 0 := by
  rw [h]
  exact ⟨rfl, rfl, rfl, by decide, by decide⟩

/-- Witness for claim C4 at the empty frame. -/
theorem empty_table_kpis_witness :
    emptyDF.rows = []
    ∧ (totalInteractions emptyDF.rows = 0
       ∧ avgViews emptyDF.rows = none
       ∧ avgEngagement emptyDF.rows = none
       ∧ avgViews emptyDF.rows ≠ some 0
       ∧ avgEngagement emptyDF.rows ≠ some 0) :=
  ⟨rfl, empty_table_kpis emptyDF rfl⟩

/-- Claim C7: in a loaded frame whose slicer columns were derived (they
were absent from the input while `published_at` was present), every row
with a null `published_at` has null derived year, weekday name and hour —
derivation never fabricates a temporal value. -/
theorem null_published_null_derived (df : DataFrame)
    (hp : ("published_at") ∈ df.cols)
    (ha : ("Année") ∉ df.cols)
    (hj : ("Jour de la semaine") ∉ df.cols)
    (hh : ("Heure") ∉ df.cols)
    (r : Row) (hr : r ∈ (deriveTemporal df).rows)
    (hnull : r.published_at = none) :
    r.annee = none ∧ r.jour_semaine = none ∧ r.heure = none := by
  have d1 : ¬(("Jour de la semaine" : String) = ("Année")) := by decide
  have d2 : ¬(("Heure" : String) = ("Année")) := by decide
  have d3 : ¬(("Heure" : String) = ("Jour de la semaine")) := by decide
  simp only [deriveTemporal, hp, if_true, List.mem_append, List.mem_singleton,
    if_neg, ha, hj, hh, d1, d2, d3, or_self, or_false, false_or, if_false,
    List.map_map, List.mem_map] at hr
  obtain ⟨r0, hr0, hEq⟩ := hr
  subst hEq
  simp only [Function.comp, deriveYearRow, deriveDayRow, deriveHourRow] at hnull ⊢
  simp [hnull]

/-- Witness for claim C7 at a one-row frame with a null timestamp. -/
theorem null_published_null_derived_witness :
    (("published_at") ∈ nullDF.cols
     ∧ ("Année") ∉ nullDF.cols
     ∧ nullRow ∈ (deriveTemporal nullDF).rows
     ∧ nullRow.published_at = none)
    ∧ (nullRow.annee = none ∧ nullRow.jour_semaine = none ∧ nullRow.heure = none) :=
  ⟨by exact ⟨by decide, by decide, by decide, rfl⟩,
   null_published_null_derived nullDF (by decide) (by decide) (by decide) (by decide)
     nullRow (by decide) rfl⟩

/-- Claim C8: the integer formatter renders 12345 as "12 345" and null as
the em-dash placeholder; the decimal formatter with 2 decimals renders
12345.6 as "12 345,60".  All three formatter calls are total functions. -/
theorem formatter_examples :
    _fr_int (some 12345) = ("12 345")
    ∧ _fr_float (some (12345.6 : ℚ)) 2 = ("12 345,60")
    ∧ _fr_int none = ("—") := by
  refine ⟨by decide, ?_, rfl⟩
  rw [show (12345.6 : ℚ) = q6 from by
    rw [show q6 = (61728 : ℚ) / 5 from by rw [← Rat.num_div_den q6]; norm_num [q6]]
    norm_num]
  decide

/-- Claim C9: the loader returns the empty frame (zero rows, zero columns)
when no file is given, and fails — returning no data — exactly when the
given file's lowercased name ends in neither supported extension. -/
theorem load_data_dispatch :
    load_data none = Except.ok emptyDF
    ∧ emptyDF.cols = [] ∧ emptyDF.rows = []
    ∧ ∀ f : UploadedFile,
        (∃ e, load_data (some f) = Except.error e)
        ↔ ¬(pyEndsWith (pyLower f.name) (".csv") = true
            ∨ pyEndsWith (pyLower f.name) (".parquet") = true) := by
  refine ⟨rfl, rfl, rfl, ?_⟩
  intro f
  cases h1 : pyEndsWith (pyLower f.name) (".csv") <;>
    cases h2 : pyEndsWith (pyLower f.name) (".parquet") <;>
      simp [load_data, h1, h2]

/-- Claim C10: on any non-empty frame missing one of the four KPI columns,
the KPI block fails with a key-lookup error instead of degrading — it
indexes `category_id`, `views`, the engagement-rate column and the
engagement-total column unconditionally. -/
theorem kpi_missing_column_error (df : DataFrame) (_hne : df.rows ≠ [])
    (hmiss : ¬(("category_id") ∈ df.cols
               ∧ ("views") ∈ df.cols
               ∧ ("Taux d\x27engagement (%)") ∈ df.cols
               ∧ ("Engagement total") ∈ df.cols)) :
    ∃ e, kpiBlock df = Except.error e := by
  by_cases h1 : ("category_id") ∈ df.cols
  case neg => exact ⟨("KeyError: category_id"), by simp [kpiBlock, h1]⟩
  by_cases h2 : ("views") ∈ df.cols
  case neg => exact ⟨("KeyError: views"), by simp [kpiBlock, h1, h2]⟩
  by_cases h3 : ("Taux d\x27engagement (%)") ∈ df.cols
  case neg =>
    exact ⟨("KeyError: Taux d\x27engagement (%)"), by simp [kpiBlock, h1, h2, h3]⟩
  by_cases h4 : ("Engagement total") ∈ df.cols
  case neg =>
    exact ⟨("KeyError: Engagement total"), by simp [kpiBlock, h1, h2, h3, h4]⟩
  exact absurd ⟨h1, h2, h3, h4⟩ hmiss

/-- Witness for claim C10 at a one-row frame holding only a `views`
column. -/
theorem kpi_missing_column_error_witness :
    (missingColsDF.rows ≠ []
     ∧ ¬(("category_id") ∈ missingColsDF.cols
         ∧ ("views") ∈ missingColsDF.cols
         ∧ ("Taux d\x27engagement (%)") ∈ missingColsDF.cols
         ∧ ("Engagement total") ∈ missingColsDF.cols))
    ∧ ∃ e, kpiBlock missingColsDF = Except.error e :=
  ⟨⟨by decide, by decide⟩,
   kpi_missing_column_error missingColsDF (by decide) (by decide)⟩

end BoostMe
